import Mathlib

/-!
Shallow embedding of the Linkedin-AI repository (analyzer.py, generator.py)
and verification of the frozen claims about it.

Modelling conventions.
* Python strings are Lean `String`; character-level processing works on
  `String.data : List Char`.
* Wall-clock timestamps are minutes since an epoch placed at a Monday 00:00,
  as an unbounded `Int` (Python `datetime` arithmetic does not overflow for
  any input relevant here).
* `pandas` missing values (`NaN` in an object column) are `Option`.
* Counts read from the CSV are `Option Int` (`astype(int)` output).
* Library calls that are external to the repository are parameters of the
  embedding: `pd.to_datetime` (an absolute date parser `String → Option Int`),
  Python `eval` used on a serialized hashtag list (`String → Option (List
  String)`), the pretrained sentiment classifier, the Groq chat-completion
  call and `json.loads`.  The repository logic around them is translated
  from the source.
-/

namespace LinkedinAI

/-! ## Character and list helpers -/

/-- ASCII lower-casing of one character; models Python `str.lower()` on the
ASCII inputs the analyzer manipulates. -/
def asciiLower (c : Char) : Char :=
  if 'A' ≤ c ∧ c ≤ 'Z' then Char.ofNat (c.toNat + 32) else c

/-- Lower-case a character list. -/
def lowerStr (s : List Char) : List Char := s.map asciiLower

/-- Whitespace test used for Python `str.strip` and the regex class `\s`. -/
def isWS (c : Char) : Bool := c.isWhitespace

/-- Whether `pat` starts `s` (own structural version of a prefix test, so
that the kernel evaluates it directly). -/
def startsWith : List Char → List Char → Bool
  | _, [] => true
  | [], _ :: _ => false
  | c :: s, p :: ps => c = p && startsWith s ps

/-- Whether `pat` occurs contiguously inside `s`; models Python `in`. -/
def containsSub (s pat : List Char) : Bool :=
  match s with
  | [] => pat.isEmpty
  | _ :: rest => startsWith s pat || containsSub rest pat

/-- Drop whitespace from both ends, as Python `str.strip()`. -/
def stripWS (l : List Char) : List Char :=
  ((l.dropWhile isWS).reverse.dropWhile isWS).reverse

/-! ## Data model (analyzer.py) -/

/-- One raw CSV row of `data/posts.csv` as loaded by `load_posts`:
columns profile, text, hashtags (serialized list), date, likes, comments,
shares; any cell may be missing. -/
structure RawRow where
  profile : Option String
  text : Option String
  hashtags : Option String
  date : Option String
  likes : Option Int
  comments : Option Int
  shares : Option Int
deriving DecidableEq, Repr

/-- A row after `preprocess_data`: hashtags parsed and cleaned, date turned
into an (hour, weekday-name) pair, engagement counts filled, text cleaned. -/
structure Post where
  profile : Option String
  text : Option String
  hashtags : List String
  date : Option String
  post_hour : Option Nat
  post_day : Option String
  likes : Int
  comments : Int
  shares : Int
deriving DecidableEq, Repr

/-! ## Deduplication (analyzer.py line 41) -/

/-- The key of `df.drop_duplicates(subset=["profile", "text", "date"])`. -/
def dupKey (r : RawRow) : Option String × Option String × Option String :=
  (r.profile, r.text, r.date)

/-- Worker for `drop_duplicates`: keep a row unless its key was seen before. -/
def dropDupGo (seen : List (Option String × Option String × Option String)) :
    List RawRow → List RawRow
  | [] => []
  | r :: rs =>
    if dupKey r ∈ seen then dropDupGo seen rs
    else r :: dropDupGo (dupKey r :: seen) rs

/-- `df.drop_duplicates(subset=["profile", "text", "date"])` (keep="first",
the pandas default). -/
def drop_duplicates (rows : List RawRow) : List RawRow := dropDupGo [] rows

/-! ## Hashtag cleaning (analyzer.py lines 45-53) -/

/-- Strip one trailing occurrence of "hashtag" (case-insensitive), as
`re.sub(r"hashtag$", "", tag, flags=re.IGNORECASE)`; Python `$` also
matches just before one final newline. -/
def stripHashtagSuffix (tag : List Char) : List Char :=
  if startsWith (lowerStr tag).reverse "hashtag".data.reverse then
    tag.take (tag.length - 7)
  else if startsWith (lowerStr tag).reverse ("hashtag".data ++ ['\n']).reverse then
    tag.take (tag.length - 8) ++ ['\n']
  else tag

/-- `clean_hashtags` from `preprocess_data`: missing cell or a failing
`eval` of the serialized list gives `[]`, otherwise each tag has an
erroneous "hashtag" suffix removed.  `evalList` is the external Python
`eval` of the serialized list. -/
def clean_hashtags (evalList : String → Option (List String))
    (cell : Option String) : List String :=
  match cell with
  | none => []
  | some s =>
    match evalList s with
    | some tags => tags.map (fun t => String.mk (stripHashtagSuffix t.data))
    | none => []

/-! ## Date parsing (analyzer.py lines 56-78) -/

/-- Hour-of-day of a timestamp in minutes. -/
def hourOf (t : Int) : Nat := ((t.ediv 60).emod 24).toNat

/-- Weekday names, epoch minute 0 being a Monday 00:00. -/
def dayName : Nat → String
  | 0 => "Monday"
  | 1 => "Tuesday"
  | 2 => "Wednesday"
  | 3 => "Thursday"
  | 4 => "Friday"
  | 5 => "Saturday"
  | _ => "Sunday"

/-- Weekday name of a timestamp in minutes (`strftime("%A")`). -/
def weekdayOf (t : Int) : String := dayName ((t.ediv 1440).emod 7).toNat

/-- The character class `[dhwmo]` of the relative-date regex.  Note that it
matches one single character, so a two-character unit can never be captured. -/
def unitChars : List Char := ['d', 'h', 'w', 'm', 'o']

/-- Maximal run of ASCII digits at the head of the list (`\d+`). -/
def digitsRun : List Char → List Char
  | [] => []
  | c :: rest => if c.isDigit then c :: digitsRun rest else []

/-- Numeric value of a digit run (`int(match.group(1))`). -/
def natOfDigits (ds : List Char) : Nat :=
  ds.foldl (fun a c => a * 10 + (c.toNat - 48)) 0

/-- Leftmost match of `re.search(r"(\d+)([dhwmo])", s)`: the first position
holding a digit run immediately followed by one of the unit characters;
returns the run value and the single captured unit character. -/
def findNumUnit : List Char → Option (Nat × Char)
  | [] => none
  | c :: rest =>
    if c.isDigit then
      let ds := digitsRun (c :: rest)
      match (c :: rest).drop ds.length with
      | u :: _ =>
        if u ∈ unitChars then some (natOfDigits ds, u) else findNumUnit rest
      | [] => findNumUnit rest
    else findNumUnit rest

/-- The `timedelta` selected by the unit comparison chain of `parse_date`,
in minutes.  The source compares the captured group against the strings
"d", "h", "w" and "mo" in turn and falls back to `timedelta(0)`. -/
def unitDelta (value : Nat) (unit : String) : Int :=
  if unit = "d" then value * 1440
  else if unit = "h" then value * 60
  else if unit = "w" then value * 7 * 1440
  else if unit = "mo" then value * 30 * 1440
  else 0

/-- `parse_date` from `preprocess_data`.  `absParse` is the external
`pd.to_datetime` (a timestamp in minutes on success); `now` is
`datetime.now()`.  A missing cell or any parse failure yields `none`,
modelling the `(None, None)` sentinel. -/
def parse_date (absParse : String → Option Int) (now : Int)
    (dateStr : Option String) : Option (Nat × String) :=
  match dateStr with
  | none => none
  | some s =>
    let ls := lowerStr s.data
    if containsSub ls "ago".data then
      match findNumUnit ls with
      | some (v, u) =>
        let post_time := now - unitDelta v (String.mk [u])
        some (hourOf post_time, weekdayOf post_time)
      | none => (absParse s).map (fun t => (hourOf t, weekdayOf t))
    else
      (absParse s).map (fun t => (hourOf t, weekdayOf t))

/-! ## Text cleaning (analyzer.py line 86) -/

/-- Replace each maximal whitespace run by a single space, as
`str.replace(r"\s+", " ", regex=True)`. -/
def collapseWS : List Char → List Char
  | [] => []
  | c :: rest =>
    if isWS c then
      match rest with
      | [] => [' ']
      | r :: _ => if isWS r then collapseWS rest else ' ' :: collapseWS rest
    else c :: collapseWS rest

/-- `df["text"].str.strip().str.replace(r"\s+", " ", regex=True)`; a missing
text stays missing. -/
def cleanText (t : Option String) : Option String :=
  t.map (fun s => String.mk (collapseWS (stripWS s.data)))

/-! ## preprocess_data (analyzer.py lines 36-88) -/

/-- Per-row field transformations of `preprocess_data` (everything after the
deduplication): hashtag cleaning, date parsing, engagement fill
(`fillna(0).astype(int)`), text cleaning. -/
def preprocessRow (evalList : String → Option (List String))
    (absParse : String → Option Int) (now : Int) (r : RawRow) : Post :=
  let hd := parse_date absParse now r.date
  { profile := r.profile
    text := cleanText r.text
    hashtags := clean_hashtags evalList r.hashtags
    date := r.date
    post_hour := hd.map Prod.fst
    post_day := hd.map Prod.snd
    likes := r.likes.getD 0
    comments := r.comments.getD 0
    shares := r.shares.getD 0 }

/-- `preprocess_data`: deduplicate on (profile, text, date), then transform
each surviving row. -/
def preprocess_data (evalList : String → Option (List String))
    (absParse : String → Option Int) (now : Int)
    (rows : List RawRow) : List Post :=
  (drop_duplicates rows).map (preprocessRow evalList absParse now)

/-! ## Feature extraction (analyzer.py lines 112-148)

The BERT embedding and K-means clustering calls are external pretrained
models; the claims do not mention the topic columns, so they are not part
of the embedding.  The sentiment classifier is a parameter `classify`
returning the label and the positive-class score of the model. -/

/-- Output of the external sentiment pipeline on one text. -/
structure SentResult where
  label : String
  score : ℚ
deriving DecidableEq, Repr

/-- Tone bucketing of `get_sentiment` (analyzer.py line 128):
`"positive" if score > 0.3 else "negative" if score < -0.3 else "neutral"`. -/
def toneOf (score : ℚ) : String :=
  if score > 3/10 then "positive"
  else if score < -(3/10) then "negative"
  else "neutral"

/-- `get_sentiment` from `extract_features`: a missing or all-whitespace
text short-circuits to `(0.0, "neutral")`; otherwise the classifier runs on
the first 512 characters and the signed score is bucketed by `toneOf`. -/
def get_sentiment (classify : List Char → SentResult)
    (text : Option String) : ℚ × String :=
  match text with
  | none => (0, "neutral")
  | some t =>
    if t.data.all isWS then (0, "neutral")
    else
      let r := classify (t.data.take 512)
      let score := if r.label = "POSITIVE" then r.score else -r.score
      (score, toneOf score)

/-- The fixed phrase alternation of the CTA regex (analyzer.py line 133). -/
def cta_phrases : List String :=
  ["learn more", "comment below", "check out", "join us",
   "click here", "dm me", "rsvp", "apply now"]

/-- `df["text"].str.contains(cta_patterns, case=False, na=False)`. -/
def hasCtaText (text : Option String) : Bool :=
  match text with
  | none => false
  | some t => cta_phrases.any (fun p => containsSub (lowerStr t.data) p.data)

/-- A post enriched by `extract_features` with the per-post scalar columns
the claims mention.  `length` is `none` for a missing text (the source
`df["text"].apply(len)` raises there and aborts the whole batch, per the
failure semantics of spec section 4.2; no claim exercises that case). -/
structure Enriched extends Post where
  length : Option Nat
  num_hashtags : Nat
  sentiment : ℚ
  tone : String
  has_cta : Bool
deriving DecidableEq, Repr

/-- Per-row part of `extract_features`. -/
def enrichRow (classify : List Char → SentResult) (p : Post) : Enriched :=
  let st := get_sentiment classify p.text
  { p with
    length := p.text.map (fun s => s.data.length)
    num_hashtags := p.hashtags.length
    sentiment := st.1
    tone := st.2
    has_cta := hasCtaText p.text }

/-- `extract_features` on the whole table (scalar columns only). -/
def extract_features (classify : List Char → SentResult)
    (posts : List Post) : List Enriched :=
  posts.map (enrichRow classify)

/-! ## Engagement analysis (analyzer.py lines 150-173) -/

/-- `df["total_engagement"] = df["likes"] + df["comments"] + df["shares"]`. -/
def total_engagement (e : Enriched) : Int :=
  e.likes + e.comments + e.shares

/-- Arithmetic mean of a list of integers, as an exact rational. -/
def meanInt (xs : List Int) : ℚ := (xs.sum : ℚ) / xs.length

/-- Round to the nearest integer, ties to even (the rounding used by
`pandas.Series.round`, modelled on exact rationals). -/
def roundHalfEven (q : ℚ) : Int :=
  let f := ⌊q⌋
  if q - f < 1/2 then f
  else if q - f > 1/2 then f + 1
  else if Even f then f else f + 1

/-- `Series.round(2)` on exact rationals. -/
def round2 (q : ℚ) : ℚ := (roundHalfEven (q * 100) : ℚ) / 100

/-- First-occurrence deduplication of grouping keys. -/
def dedupKeysGo {K : Type} [DecidableEq K] (seen : List K) : List K → List K
  | [] => []
  | k :: ks =>
    if k ∈ seen then dedupKeysGo seen ks
    else k :: dedupKeysGo (k :: seen) ks

/-- Distinct grouping keys in first-occurrence order. -/
def groupKeys {K : Type} [DecidableEq K] (ks : List K) : List K :=
  dedupKeysGo [] ks

/-- `df.groupby(key)["total_engagement"].mean().round(2).to_dict()`:
a key extractor returning `none` models a `NaN` grouping key, which pandas
drops (`dropna=True`, the default), so no group is formed for it. -/
def groupbyMean {K : Type} [DecidableEq K] (key : Enriched → Option K)
    (es : List Enriched) : List (K × ℚ) :=
  (groupKeys (es.filterMap key)).map (fun k =>
    (k, round2 (meanInt ((es.filter (fun e => decide (key e = some k))).map
      total_engagement))))

/-- Grouping key of `avg_engagement_by_hour` (`post_hour`, `NaN` if the
date did not parse). -/
def hourKey (e : Enriched) : Option Nat := e.post_hour

/-- Grouping key of `avg_engagement_by_day`. -/
def dayKey (e : Enriched) : Option String := e.post_day

/-- Grouping key of `avg_engagement_by_tone` (always present). -/
def toneKey (e : Enriched) : Option String := some e.tone

/-- Grouping key of `avg_engagement_by_has_cta` (always present). -/
def ctaKey (e : Enriched) : Option Bool := some e.has_cta

/-- One bin of `pd.cut`: left edge (excluded), optional right edge
(included; `none` is `float("inf")`) and label. -/
def cutAssign (x : Nat) : List (Nat × Option Nat × String) → Option String
  | [] => none
  | (lo, hi, lab) :: rest =>
    match hi with
    | some h => if lo < x ∧ x ≤ h then some lab else cutAssign x rest
    | none => if lo < x then some lab else cutAssign x rest

/-- The bins and labels of analyzer.py line 164:
`bins=[0, 100, 500, 1000, float("inf")]`,
`labels=["short", "medium", "long", "very long"]`. -/
def length_bins : List (Nat × Option Nat × String) :=
  [(0, some 100, "short"), (100, some 500, "medium"),
   (500, some 1000, "long"), (1000, none, "very long")]

/-- `pd.cut(df["length"], bins=[0, 100, 500, 1000, float("inf")], ...)`:
a length outside every bin (here, exactly 0) gets the `NaN` category. -/
def lengthBucket (n : Nat) : Option String := cutAssign n length_bins

/-- Grouping key of `avg_engagement_by_length`. -/
def lengthKey (e : Enriched) : Option String :=
  match e.length with
  | some n => lengthBucket n
  | none => none

/-- The `avg_engagement_by_hour` trend entry. -/
def avg_engagement_by_hour (es : List Enriched) : List (Nat × ℚ) :=
  groupbyMean hourKey es

/-- The `avg_engagement_by_day` trend entry. -/
def avg_engagement_by_day (es : List Enriched) : List (String × ℚ) :=
  groupbyMean dayKey es

/-- The `avg_engagement_by_tone` trend entry. -/
def avg_engagement_by_tone (es : List Enriched) : List (String × ℚ) :=
  groupbyMean toneKey es

/-- The `avg_engagement_by_has_cta` trend entry. -/
def avg_engagement_by_has_cta (es : List Enriched) : List (Bool × ℚ) :=
  groupbyMean ctaKey es

/-- The `avg_engagement_by_length` trend entry. -/
def avg_engagement_by_length (es : List Enriched) : List (String × ℚ) :=
  groupbyMean lengthKey es

/-! ## Generator model (generator.py)

`generate_posts` builds one record per requested post around a synchronous
call to the Groq chat API followed by JSON-repair parsing.  External pieces
(the API call, `json.loads`, the two `datetime.now()` reads per iteration)
are parameters; everything else is translated from the source.  The long
natural-language prompt literals are abbreviated: only their non-emptiness
and the values interpolated into them flow into any later computation. -/

/-- A Python value produced by `json.loads` (or stored in a post record):
`jnull` doubles as the Python `None`. -/
inductive JVal where
  | jnull : JVal
  | jbool : Bool → JVal
  | jnum : ℚ → JVal
  | jstr : String → JVal
  | jarr : List JVal → JVal
  | jobj : List (String × JVal) → JVal

/-- Key lookup in a parsed JSON object (`json.loads` returns a dict, so the
field list is key-unique and a first-match lookup is the dict lookup). -/
def jget (k : String) : JVal → Option JVal
  | .jobj fields => (fields.find? (fun p => decide (p.1 = k))).map Prod.snd
  | _ => none

/-- Python `isinstance(v, dict) and "post_text" in v and "explanation" in v`. -/
def hasRequiredKeys (v : JVal) : Bool :=
  match v with
  | .jobj fields =>
    fields.any (fun p => decide (p.1 = "post_text")) &&
      fields.any (fun p => decide (p.1 = "explanation"))
  | _ => false

/-- A generated post record; its fields are exactly the keys of the
`post_data` dict of `generate_posts` (generator.py lines 178-186). -/
structure GenPost where
  post_id : String
  post_text : JVal
  explanation : JVal
  generated_at : String
  suggested_posting_day : String
  suggested_posting_hour : Int
  error : Option String

/-- Length of the whitespace run at the head of the list (regex `\s*`). -/
def wsRun : List Char → Nat
  | [] => 0
  | c :: rest => if isWS c then wsRun rest + 1 else 0

/-- Whether the position at the head of `l` is a line end (`$` under
`re.MULTILINE`): end of input or a newline. -/
def lineEndAt : List Char → Bool
  | [] => true
  | c :: _ => c = '\n'

/-- Match length of the alternative `^```json\s*` at the current position
(`atLineStart` carries the `^` context of the original string). -/
def matchFenceOpen (atLineStart : Bool) (l : List Char) : Option Nat :=
  if atLineStart ∧ startsWith l "```json".data then
    some (7 + wsRun (l.drop 7))
  else none

/-- Match length of the alternative `\s*```$` at the current position.  The
greedy `\s*` cannot backtrack into the backquotes, so only the maximal
whitespace run can precede them. -/
def matchFenceClose (l : List Char) : Option Nat :=
  let m := wsRun l
  if startsWith (l.drop m) "```".data ∧ lineEndAt (l.drop (m + 3)) then
    some (m + 3)
  else none

/-- Scanner of `re.sub(r"^```json\s*|\s*```$", "", raw, flags=re.MULTILINE |
re.DOTALL)`: left-to-right, leftmost alternative first, deleting each
non-overlapping match.  `fuel` only bounds the recursion; it is initialised
to the input length, which every step strictly decreases by at least one. -/
def removeFencesGo (fuel : Nat) (atLineStart : Bool) (l : List Char) :
    List Char :=
  match fuel with
  | 0 => l
  | fuel + 1 =>
    match l with
    | [] => []
    | c :: rest =>
      match matchFenceOpen atLineStart l with
      | some n =>
        removeFencesGo fuel ((l.take n).getLast? = some '\n') (l.drop n)
      | none =>
        match matchFenceClose l with
        | some n =>
          removeFencesGo fuel ((l.take n).getLast? = some '\n') (l.drop n)
        | none => c :: removeFencesGo fuel (c = '\n') rest

/-- The fence-stripping `re.sub` of generator.py line 203. -/
def removeFences (l : List Char) : List Char :=
  removeFencesGo l.length true l

/-- Index of the first occurrence of `c` (`str.find`, `none` for -1). -/
def findChar (c : Char) : List Char → Option Nat
  | [] => none
  | d :: rest =>
    if d = c then some 0 else (findChar c rest).map (· + 1)

/-- Index of the last occurrence of `c` (`str.rfind`, `none` for -1). -/
def rfindChar (c : Char) (l : List Char) : Option Nat :=
  (findChar c l.reverse).map (fun i => l.length - 1 - i)

/-- The brace-slicing of generator.py lines 204-207: slice from the first
`{` to the last `}` when both exist (an empty slice when they cross),
otherwise keep the cleaned response unchanged. -/
def braceSlice (l : List Char) : List Char :=
  match findChar '{' l, rfindChar '}' l with
  | some i, some j => (l.drop i).take (j + 1 - i)
  | _, _ => l

/-- The whole response-cleaning pipeline applied to the raw (already
stripped) LLM response before `json.loads`:
`re.sub(...).strip()` then the brace slice. -/
def jsonCleaned (raw : String) : String :=
  String.mk (braceSlice (stripWS (removeFences raw.data)))

/-- A single-quote character, written numerically. -/
def sq : String := String.mk [Char.ofNat 39]

/-- The `str(ValueError)` raised for a structurally invalid parsed JSON
(generator.py line 215). -/
def missingKeysMsg : String :=
  "Parsed JSON missing required keys (" ++ sq ++ "post_text" ++ sq ++
    ", " ++ sq ++ "explanation" ++ sq ++ ")"

/-- The trends mapping as consumed by the generator, after `load_trends`.
Each field holds the entries of one metric dict in insertion order; `none`
models a value that is not a dict at all (a `str` the generator rejects
with its `isinstance` checks), while a missing metric is `some []` (the
`.get(..., {})` default, which takes the same code path). -/
structure Trends where
  avg_engagement_by_day : Option (List (String × ℚ))
  avg_engagement_by_tone : Option (List (String × ℚ))
  avg_engagement_by_has_cta : Option (List (Bool × ℚ))
  avg_engagement_by_hour : Option (List (ℚ × ℚ))
  archit_top_hashtags : Option (List String)
  archit_top_topics : Option (List String)

/-- Dict lookup with default (`dict.get(k, d)`). -/
def lookupD {K V : Type} [DecidableEq K] (l : List (K × V)) (k : K) (d : V) :
    V :=
  match l.find? (fun p => decide (p.1 = k)) with
  | some p => p.2
  | none => d

/-- Stable insert for a descending sort by the second component; an element
is placed before every later element whose value it ties. -/
def insertDescByVal (x : String × ℚ) :
    List (String × ℚ) → List (String × ℚ)
  | [] => [x]
  | y :: ys => if x.2 ≥ y.2 then x :: y :: ys else y :: insertDescByVal x ys

/-- `sorted(items, key=lambda item: item[1], reverse=True)` (stable). -/
def sortDescByVal : List (String × ℚ) → List (String × ℚ)
  | [] => []
  | x :: xs => insertDescByVal x (sortDescByVal xs)

/-- Fallback prompt of `get_prompt` when trends are missing (text
abbreviated; it is a fixed non-empty literal). -/
def fallbackPrompt : String :=
  "You are a professional LinkedIn content creator writing for Archit " ++
    "Anand. Create a compelling LinkedIn post about AI in marketing. " ++
    "Generate the response as a JSON object ONLY with keys post_text " ++
    "and explanation."

/-- Feedback section appended to the prompt (generator.py lines 109-119);
`feedback` is the loaded feedback dict (post id, field-comment pairs). -/
def feedbackSection (feedback : Option (List (String × List (String × String)))) :
    String :=
  match feedback with
  | none => ""
  | some [] => ""
  | some fbs =>
    "\nIncorporate the following user feedback from previous " ++
      "generations:\n" ++
      String.join (fbs.map (fun p =>
        "- For posts similar to " ++ String.mk (p.1.data.take 10) ++
          "...: " ++
          String.intercalate "; " (p.2.map (fun kv => kv.1 ++ ": " ++ kv.2)) ++
          "\n"))

/-- `get_prompt(trends, feedback)` (generator.py lines 50-142): the
trends-less branch returns the fallback prompt with no best days; the main
branch derives the top-2 engagement days, a tone, a CTA preference and
topic/hashtag strings, and interpolates them into the prompt (prompt text
abbreviated).  Returns (prompt, best_days). -/
def get_prompt (trends : Option Trends)
    (feedback : Option (List (String × List (String × String)))) :
    String × Option (List (String × ℚ)) :=
  match trends with
  | none => (fallbackPrompt, none)
  | some t =>
    let best_days :=
      match t.avg_engagement_by_day with
      | some d => (sortDescByVal d).take 2
      | none => []
    let tone :=
      match t.avg_engagement_by_tone with
      | some td =>
        if lookupD td "positive" 0 ≥ lookupD td "negative" 0 then "positive"
        else "negative"
      | none => "positive"
    let cta_preference :=
      match t.avg_engagement_by_has_cta with
      | some cd =>
        if lookupD cd true 0 > lookupD cd false 0 then "explicit CTA"
        else "subtle CTA"
      | none => "subtle CTA"
    let topics_str :=
      match t.archit_top_topics with
      | some (k :: ks) => String.intercalate ", " (k :: ks)
      | _ => "AI, marketing, performance"
    let hashtags_str :=
      match t.archit_top_hashtags with
      | some (k :: ks) => String.intercalate ", " (k :: ks)
      | _ => "#PerformanceMarketing, #AI, #Marketing"
    let focus_topic :=
      match t.archit_top_topics with
      | some (k :: _) => k
      | _ => "AI in Marketing"
    let prompt :=
      "You are a professional LinkedIn content creator writing for " ++
        "Archit Anand. High-engagement topics seem to be: " ++ topics_str ++
        ". Generally, a " ++ tone ++ " tone performs well. Engagement " ++
        "suggests using a " ++ cta_preference ++ ". Popular hashtags " ++
        "include: " ++ hashtags_str ++ "." ++
        feedbackSection feedback ++
        " Based on the analysis and feedback, generate ONE compelling " ++
        "LinkedIn post focusing on " ++ focus_topic ++
        " as a JSON object ONLY with keys post_text and explanation."
    (prompt, some best_days)

/-- The suggested posting day derived from `best_days`
(generator.py lines 152-154): default "Tuesday". -/
def suggestedDay (best_days : Option (List (String × ℚ))) : String :=
  match best_days with
  | some (d :: _) => d.1
  | _ => "Tuesday"

/-- Python `max(d, key=d.get)` over a non-empty dict: the first key whose
value is maximal in iteration order. -/
def maxKeyByValGo (best : ℚ × ℚ) : List (ℚ × ℚ) → ℚ
  | [] => best.1
  | p :: rest =>
    if p.2 > best.2 then maxKeyByValGo p rest else maxKeyByValGo best rest

/-- Python `int()` truncation toward zero on a rational. -/
def intTrunc (q : ℚ) : Int := q.num.tdiv (q.den : Int)

/-- The suggested posting hour (generator.py lines 156-168): the key with
maximal average engagement in `avg_engagement_by_hour`, truncated to an
int; default 15.  (The per-key `float(k)` conversion cannot fail in the
model, where keys are already numbers.) -/
def suggestedHour (trends : Option Trends) : Int :=
  let avg_hour_data :=
    match trends with
    | none => ([] : List (ℚ × ℚ))
    | some t => t.avg_engagement_by_hour.getD []
  match avg_hour_data with
  | [] => 15
  | p :: rest => intTrunc (maxKeyByValGo p rest)

/-- One iteration of the generation loop (generator.py lines 175-234).
`api i` is the i-th `client.chat.completions.create` call (`Except.error`
carries the exception text), `jsonLoads` is `json.loads` (`Except.error`
carries `str(json_e)`), `nowStr i` and `genAt i` are the two
`datetime.now()` reads of iteration `i`. -/
def mkPostTry (jsonLoads : String → Except String JVal)
    (api : Nat → Except String String) (nowStr genAt : Nat → String)
    (suggested_day : String) (suggested_hour : Int) (i : Nat) : GenPost :=
  let base : GenPost :=
    { post_id := "post_trend_" ++ toString (i + 1) ++ "_" ++ nowStr i
      post_text := .jnull
      explanation := .jnull
      generated_at := genAt i
      suggested_posting_day := suggested_day
      suggested_posting_hour := suggested_hour
      error := none }
  match api i with
  | .error e =>
    { base with
      error := some ("API Error: " ++ e)
      explanation := .jstr ("Error during generation: " ++ e) }
  | .ok raw0 =>
    let raw := String.mk (stripWS raw0.data)
    match jsonLoads (jsonCleaned raw) with
    | .error msg =>
      { base with
        error := some ("JSON Parsing Error: " ++ msg)
        post_text := .jstr raw
        explanation := .jstr
          "Error: LLM did not return valid JSON conforming to structure." }
    | .ok parsed =>
      if hasRequiredKeys parsed then
        { base with
          post_text := (jget "post_text" parsed).getD .jnull
          explanation := (jget "explanation" parsed).getD .jnull }
      else
        { base with
          error := some missingKeysMsg
          post_text := .jstr raw
          explanation := .jstr "Error: JSON structure invalid (missing keys)." }

/-- `generate_posts(trends, num_posts, feedback)` (generator.py lines
146-236): compute the prompt and the posting suggestions once, then run the
per-post loop `num_posts` times, collecting one record per iteration. -/
def generate_posts (jsonLoads : String → Except String JVal)
    (api : Nat → Except String String) (nowStr genAt : Nat → String)
    (trends : Option Trends)
    (feedback : Option (List (String × List (String × String))))
    (num_posts : Nat) : List GenPost :=
  let pb := get_prompt trends feedback
  let sDay := suggestedDay pb.2
  let sHour := suggestedHour trends
  if pb.1 = "" then []
  else (List.range num_posts).map
    (mkPostTry jsonLoads api nowStr genAt sDay sHour)

/-! ## Specification-side statement of the deduplication claim

`keepFirstOccurrences` transcribes the claim wording: walking the input in
order, a row is kept exactly when no earlier row of the input agrees with
it on the whole (profile, text, date) triple; every later row that does
agree is dropped.  It tracks the full list of earlier rows and compares
triples against it, unlike the implementation, which folds an accumulated
key set. -/

/-- Keep a row iff its triple differs from the triple of every earlier row;
`earlier` is the already-walked part of the input. -/
def keepFirstsAux (earlier : List RawRow) : List RawRow → List RawRow
  | [] => []
  | r :: rs =>
    if dupKey r ∈ earlier.map dupKey then keepFirstsAux (earlier ++ [r]) rs
    else r :: keepFirstsAux (earlier ++ [r]) rs

/-- Claim-side keep-first deduplication over the (profile, text, date)
triple. -/
def keepFirstOccurrences (rows : List RawRow) : List RawRow :=
  keepFirstsAux [] rows

/-! ## Lemmas about the normalizer -/

/-- Every row surviving `dropDupGo` comes from the input. -/
theorem mem_of_mem_dropDupGo {seen : List (Option String × Option String × Option String)}
    {rs : List RawRow} {r : RawRow} (h : r ∈ dropDupGo seen rs) : r ∈ rs := by
  induction rs generalizing seen with
  | nil => exact h
  | cons a as ih =>
    by_cases hk : dupKey a ∈ seen
    · simp only [dropDupGo, if_pos hk] at h
      exact List.mem_cons_of_mem _ (ih h)
    · simp only [dropDupGo, if_neg hk, List.mem_cons] at h
      rcases h with h | h
      · exact h ▸ List.mem_cons_self _ _
      · exact List.mem_cons_of_mem _ (ih h)

/-- Every row surviving `drop_duplicates` comes from the input. -/
theorem mem_of_mem_drop_duplicates {rows : List RawRow} {r : RawRow}
    (h : r ∈ drop_duplicates rows) : r ∈ rows :=
  mem_of_mem_dropDupGo h

/-- The seen-key accumulator agrees with the earlier-rows accumulator as
long as the seen set holds exactly the keys of the earlier rows. -/
theorem dropDupGo_eq_keepFirstsAux (rs : List RawRow) :
    ∀ (seen : List (Option String × Option String × Option String))
      (earlier : List RawRow),
      (∀ k, k ∈ seen ↔ k ∈ earlier.map dupKey) →
      dropDupGo seen rs = keepFirstsAux earlier rs := by
  induction rs with
  | nil => intro seen earlier _; rfl
  | cons r rs ih =>
    intro seen earlier h
    by_cases hc : dupKey r ∈ earlier.map dupKey
    · have hs : dupKey r ∈ seen := (h _).2 hc
      simp only [dropDupGo, keepFirstsAux, if_pos hc, if_pos hs]
      refine ih _ _ (fun k => ?_)
      rw [h k, List.map_append, List.mem_append]
      constructor
      · exact Or.inl
      · rintro (hk | hk)
        · exact hk
        · simp only [List.map_cons, List.map_nil, List.mem_singleton] at hk
          exact hk ▸ hc
    · have hs : dupKey r ∉ seen := fun hk => hc ((h _).1 hk)
      simp only [dropDupGo, keepFirstsAux, if_neg hc, if_neg hs]
      refine congrArg (r :: ·) (ih _ _ (fun k => ?_))
      rw [List.mem_cons, h k, List.map_append, List.mem_append]
      simp only [List.map_cons, List.map_nil, List.mem_singleton]
      tauto

/-- Membership in the key-deduplication worker: a key appears in the output
iff it appears in the input and was not already seen. -/
theorem mem_dedupKeysGo {K : Type} [DecidableEq K] (ks : List K) :
    ∀ (seen : List K) (x : K),
      x ∈ dedupKeysGo seen ks ↔ x ∈ ks ∧ x ∉ seen := by
  induction ks with
  | nil => intro seen x; simp [dedupKeysGo]
  | cons k ks ih =>
    intro seen x
    by_cases hk : k ∈ seen
    · rw [dedupKeysGo, if_pos hk, ih]
      have hk2 : x = k → x ∈ seen := fun h => h ▸ hk
      simp only [List.mem_cons]
      tauto
    · rw [dedupKeysGo, if_neg hk, List.mem_cons, ih]
      have hk2 : x = k → x ∉ seen := fun h => h ▸ hk
      simp only [List.mem_cons]
      tauto

/-- A key occurring in the input occurs among the distinct grouping keys. -/
theorem mem_groupKeys {K : Type} [DecidableEq K] {ks : List K} {x : K}
    (h : x ∈ ks) : x ∈ groupKeys ks :=
  (mem_dedupKeysGo ks [] x).2 ⟨h, by simp⟩

/-- The keys of a grouped mean are the distinct keys of the rows. -/
theorem keys_groupbyMean {K : Type} [DecidableEq K]
    (key : Enriched → Option K) (es : List Enriched) :
    (groupbyMean key es).map Prod.fst = groupKeys (es.filterMap key) := by
  simp [groupbyMean, List.map_map, Function.comp_def]

/-- A row whose grouping key is `NaN` contributes nothing: appending it to
the table leaves the grouped means untouched. -/
theorem groupbyMean_append_none {K : Type} [DecidableEq K]
    (key : Enriched → Option K) (es : List Enriched) {e : Enriched}
    (he : key e = none) :
    groupbyMean key (es ++ [e]) = groupbyMean key es := by
  have hfm : (es ++ [e]).filterMap key = es.filterMap key := by
    simp [List.filterMap_append, he]
  have hfl : ∀ k : K, (es ++ [e]).filter (fun x => decide (key x = some k)) =
      es.filter (fun x => decide (key x = some k)) := by
    intro k
    simp [List.filter_append, he]
  simp only [groupbyMean, hfm]
  refine List.map_congr_left (fun k _ => ?_)
  rw [hfl k]

/-- A row whose grouping key is present makes its key a group of the
grouped mean. -/
theorem key_mem_groupbyMean {K : Type} [DecidableEq K]
    (key : Enriched → Option K) {es : List Enriched} {e : Enriched} {k : K}
    (he : e ∈ es) (hk : key e = some k) :
    k ∈ (groupbyMean key es).map Prod.fst := by
  rw [keys_groupbyMean]
  exact mem_groupKeys (List.mem_filterMap.2 ⟨e, he, hk⟩)

/-- Tone is "positive" exactly above the 0.3 threshold. -/
theorem toneOf_eq_positive_iff (s : ℚ) : toneOf s = "positive" ↔ s > 3/10 := by
  unfold toneOf
  split_ifs with h1 h2
  · simp [h1]
  · simp only [iff_false_intro h1, iff_false]
    decide
  · simp only [iff_false_intro h1, iff_false]
    decide

/-- Tone is "negative" exactly below the -0.3 threshold. -/
theorem toneOf_eq_negative_iff (s : ℚ) : toneOf s = "negative" ↔ s < -(3/10) := by
  unfold toneOf
  split_ifs with h1 h2
  · constructor
    · intro h; exact absurd h (by decide)
    · intro h; exact absurd (lt_trans h (by norm_num)) (not_lt.2 (le_of_lt h1))
  · simp [h2]
  · simp only [iff_false_intro h2, iff_false]
    decide

/-- Tone is "neutral" exactly on the closed band [-0.3, 0.3]. -/
theorem toneOf_eq_neutral_iff (s : ℚ) :
    toneOf s = "neutral" ↔ (-(3/10) ≤ s ∧ s ≤ 3/10) := by
  unfold toneOf
  split_ifs with h1 h2
  · constructor
    · intro h; exact absurd h (by decide)
    · rintro ⟨-, h⟩; exact absurd h1 (not_lt.2 h)
  · constructor
    · intro h; exact absurd h (by decide)
    · rintro ⟨h, -⟩; exact absurd h2 (not_lt.2 h)
  · simp only [true_iff]
    exact ⟨not_lt.1 h2, not_lt.1 h1⟩

/-- A string append with a non-empty right part is non-empty. -/
theorem str_append_ne_empty_right (s t : String) (ht : t.length ≠ 0) :
    s ++ t ≠ "" := by
  intro h
  have h2 := congrArg String.length h
  rw [String.length_append] at h2
  simp only [String.length_empty, Nat.add_eq_zero] at h2
  exact ht h2.2

set_option maxRecDepth 4000 in
/-- The prompt built by `get_prompt` is never the empty string, so the
early-return guard of `generate_posts` never fires. -/
theorem get_prompt_fst_ne_empty (trends : Option Trends)
    (feedback : Option (List (String × List (String × String)))) :
    (get_prompt trends feedback).1 ≠ "" := by
  cases trends with
  | none =>
    intro h
    have h2 : fallbackPrompt = "" := h
    exact absurd (congrArg String.length h2) (by decide)
  | some t =>
    simp only [get_prompt]
    exact str_append_ne_empty_right _ _ (by decide)

/-- Closed-form evaluation of the `pd.cut` bins of `analyze_engagement`. -/
theorem lengthBucket_eq (n : Nat) :
    lengthBucket n =
      if 0 < n ∧ n ≤ 100 then some "short"
      else if 100 < n ∧ n ≤ 500 then some "medium"
      else if 500 < n ∧ n ≤ 1000 then some "long"
      else if 1000 < n then some "very long"
      else none := rfl

/-! ## The claims -/

/-- C1: the specified relative-date rule treats the unit "mo" as 30-day
months, but the regex character class `[dhwmo]` captures one single
character, so on "2mo ago" the code captures the unit "m", the comparison
chain (whose "mo" arm is unreachable) selects a zero delta, and parse_date
returns the hour/weekday of `now` itself (here the epoch: hour 0, Monday),
whereas subtracting the mandated 2 x 30 days yields a different weekday
(Thursday).  This exhibits the divergence at the concrete failing input. -/
theorem C1_relative_month_unit_bug :
    parse_date (fun _ => none) 0 (some "2mo ago") = some (0, "Monday") ∧
    findNumUnit (lowerStr ("2mo ago").data) = some (2, 'm') ∧
    unitDelta 2 (String.mk ['m']) = 0 ∧
    hourOf (0 - unitDelta 2 "mo") = 0 ∧
    weekdayOf (0 - unitDelta 2 "mo") = "Thursday" ∧
    ("Monday" : String) ≠ "Thursday" := by decide

/-- C2 counterexample: `fillna(0).astype(int)` does not clamp negative
inputs, so a raw row with likes = -1 survives normalization with a
negative likes field, contradicting the claim that every normalized
engagement field is non-negative. -/
theorem C2_counterexample :
    (preprocess_data (fun _ => none) (fun _ => none) 0
      [{ profile := some "p", text := some "t", hashtags := none,
         date := none, likes := some (-1), comments := none,
         shares := none }]).map Post.likes = [-1] ∧
    ¬ (0 ≤ (-1 : Int)) := by decide

/-- C2 (amended): after normalization every engagement field is an integer
with missing values coerced to 0, and whenever every present input count is
non-negative, all three fields and the total engagement of every enriched
post are non-negative. -/
theorem C2_engagement_nonneg (evalList : String → Option (List String))
    (absParse : String → Option Int) (now : Int)
    (classify : List Char → SentResult) (rows : List RawRow)
    (h : ∀ r ∈ rows,
      (∀ v, r.likes = some v → 0 ≤ v) ∧
      (∀ v, r.comments = some v → 0 ≤ v) ∧
      (∀ v, r.shares = some v → 0 ≤ v)) :
    ∀ e ∈ extract_features classify (preprocess_data evalList absParse now rows),
      0 ≤ e.likes ∧ 0 ≤ e.comments ∧ 0 ≤ e.shares ∧ 0 ≤ total_engagement e := by
  intro e he
  simp only [extract_features, preprocess_data, List.map_map, List.mem_map] at he
  obtain ⟨r, hr, rfl⟩ := he
  obtain ⟨hl, hc, hs⟩ := h r (mem_of_mem_drop_duplicates hr)
  have h1 : 0 ≤ r.likes.getD 0 := by
    cases hv : r.likes with
    | none => simp
    | some v => simpa using hl v hv
  have h2 : 0 ≤ r.comments.getD 0 := by
    cases hv : r.comments with
    | none => simp
    | some v => simpa using hc v hv
  have h3 : 0 ≤ r.shares.getD 0 := by
    cases hv : r.shares with
    | none => simp
    | some v => simpa using hs v hv
  refine ⟨h1, h2, h3, ?_⟩
  have := add_nonneg (add_nonneg h1 h2) h3
  simpa [total_engagement, Function.comp, enrichRow, preprocessRow] using this

/-- C2 witness. -/
theorem C2_engagement_nonneg_witness :
    0 ≤ (enrichRow (fun _ => ⟨"POSITIVE", 1/2⟩)
        (preprocessRow (fun _ => none) (fun _ => none) 0
          { profile := some "p", text := some "t", hashtags := none,
            date := none, likes := some 2, comments := none,
            shares := some 3 })).likes := by
  have h := C2_engagement_nonneg (fun _ => none) (fun _ => none) 0
    (fun _ => ⟨"POSITIVE", 1/2⟩)
    [{ profile := some "p", text := some "t", hashtags := none,
       date := none, likes := some 2, comments := none, shares := some 3 }]
    (by intro r hr; refine ⟨?_, ?_, ?_⟩ <;>
        (intro v hv; rcases List.mem_singleton.1 hr with rfl; simp_all) <;> omega)
  exact (h _ (by simp [extract_features, preprocess_data, drop_duplicates,
    dropDupGo])).1

/-- C3: normalization deduplicates exactly by the keep-first policy over
the (profile, text, date) triple: walking the input in order, a row is
kept iff no earlier row agrees with it on the whole triple, so later exact
duplicates are dropped and rows differing in any component all survive. -/
theorem C3_dedup_keep_first (rows : List RawRow) :
    drop_duplicates rows = keepFirstOccurrences rows :=
  dropDupGo_eq_keepFirstsAux rows [] [] (by simp)

/-- C4: for a non-blank text the tone assigned by `get_sentiment` is
"positive" iff the signed score exceeds 0.3, "negative" iff it is below
-0.3, and "neutral" exactly on the closed band in between; in particular a
score of exactly 0.3 is bucketed "neutral". -/
theorem C4_tone_thresholds (classify : List Char → SentResult) (t : String)
    (h : t.data.all isWS = false) :
    let pr := get_sentiment classify (some t)
    (pr.2 = "positive" ↔ pr.1 > 3/10) ∧
    (pr.2 = "negative" ↔ pr.1 < -(3/10)) ∧
    (pr.2 = "neutral" ↔ (-(3/10) ≤ pr.1 ∧ pr.1 ≤ 3/10)) ∧
    toneOf (3/10) = "neutral" := by
  intro pr
  have hpr : pr = (if (classify (t.data.take 512)).label = "POSITIVE" then
        (classify (t.data.take 512)).score else -(classify (t.data.take 512)).score,
      toneOf (if (classify (t.data.take 512)).label = "POSITIVE" then
        (classify (t.data.take 512)).score else -(classify (t.data.take 512)).score)) := by
    show get_sentiment classify (some t) = _
    simp [get_sentiment, h]
  rw [hpr]
  exact ⟨toneOf_eq_positive_iff _, toneOf_eq_negative_iff _,
    toneOf_eq_neutral_iff _, by norm_num [toneOf]⟩

/-- C4 witness. -/
theorem C4_tone_thresholds_witness :
    ("x".data.all isWS = false) ∧
    (let pr := get_sentiment (fun _ => ⟨"POSITIVE", 2/5⟩) (some "x")
     (pr.2 = "positive" ↔ pr.1 > 3/10) ∧
     (pr.2 = "negative" ↔ pr.1 < -(3/10)) ∧
     (pr.2 = "neutral" ↔ (-(3/10) ≤ pr.1 ∧ pr.1 ≤ 3/10)) ∧
     toneOf (3/10) = "neutral") :=
  ⟨by decide, C4_tone_thresholds (fun _ => ⟨"POSITIVE", 2/5⟩) "x" (by decide)⟩

/-- C5: the length bucket feeding `avg_engagement_by_length` is fixed by
the left-exclusive/right-inclusive boundaries (0,100] short, (100,500]
medium, (500,1000] long, (1000,inf) "very long"; the grouping key of an
enriched post of length n is exactly that bucket, and a post of exactly
100 characters falls in "short". -/
theorem C5_length_bucket_boundaries (n : Nat) :
    (lengthBucket n = some "short" ↔ 0 < n ∧ n ≤ 100) ∧
    (lengthBucket n = some "medium" ↔ 100 < n ∧ n ≤ 500) ∧
    (lengthBucket n = some "long" ↔ 500 < n ∧ n ≤ 1000) ∧
    (lengthBucket n = some "very long" ↔ 1000 < n) ∧
    (∀ e : Enriched, e.length = some n → lengthKey e = lengthBucket n) ∧
    lengthBucket 100 = some "short" := by
  refine ⟨?_, ?_, ?_, ?_, ?_, by decide⟩
  · constructor
    · intro h
      rw [lengthBucket_eq] at h
      split_ifs at h with h1 h2 h3 h4
      · exact h1
      · exact absurd h (by decide)
      · exact absurd h (by decide)
      · exact absurd h (by decide)
    · intro h
      rw [lengthBucket_eq, if_pos h]
  · constructor
    · intro h
      rw [lengthBucket_eq] at h
      split_ifs at h with h1 h2 h3 h4
      · exact absurd h (by decide)
      · exact h2
      · exact absurd h (by decide)
      · exact absurd h (by decide)
    · intro h
      rw [lengthBucket_eq, if_neg (by omega), if_pos h]
  · constructor
    · intro h
      rw [lengthBucket_eq] at h
      split_ifs at h with h1 h2 h3 h4
      · exact absurd h (by decide)
      · exact absurd h (by decide)
      · exact h3
      · exact absurd h (by decide)
    · intro h
      rw [lengthBucket_eq, if_neg (by omega), if_neg (by omega), if_pos h]
  · constructor
    · intro h
      rw [lengthBucket_eq] at h
      split_ifs at h with h1 h2 h3 h4
      · exact absurd h (by decide)
      · exact absurd h (by decide)
      · exact absurd h (by decide)
      · exact h4
    · intro h
      rw [lengthBucket_eq, if_neg (by omega), if_neg (by omega),
        if_neg (by omega), if_pos h]
  · intro e he
    simp [lengthKey, he]

/-- C5 witness. -/
theorem C5_length_bucket_boundaries_witness :
    lengthBucket 100 = some "short" ∧ (0 < 100 ∧ 100 ≤ 100) :=
  ⟨((C5_length_bucket_boundaries 100).1).2 (by omega), by omega⟩

/-- C6: a record whose date fails to parse gets a null hour and day, is
still carried into the enriched per-post table, forms no group in the
hour/day aggregations (appending it changes neither), and still joins the
tone grouping, a dimension where it has a non-null key. -/
theorem C6_unparseable_date_excluded (classify : List Char → SentResult)
    (evalList : String → Option (List String))
    (absParse : String → Option Int) (now : Int) (rows : List RawRow)
    (r : RawRow) (es : List Enriched)
    (hr : r ∈ drop_duplicates rows)
    (hd : parse_date absParse now r.date = none) :
    let e := enrichRow classify (preprocessRow evalList absParse now r)
    e.post_hour = none ∧ e.post_day = none ∧
    e ∈ extract_features classify (preprocess_data evalList absParse now rows) ∧
    avg_engagement_by_hour (es ++ [e]) = avg_engagement_by_hour es ∧
    avg_engagement_by_day (es ++ [e]) = avg_engagement_by_day es ∧
    e.tone ∈ (avg_engagement_by_tone (es ++ [e])).map Prod.fst := by
  intro e
  have hh : e.post_hour = none := by
    simp [e, enrichRow, preprocessRow, hd]
  have hdd : e.post_day = none := by
    simp [e, enrichRow, preprocessRow, hd]
  refine ⟨hh, hdd, ?_, ?_, ?_, ?_⟩
  · simp only [extract_features, preprocess_data, List.map_map]
    exact List.mem_map_of_mem _ hr
  · exact groupbyMean_append_none hourKey es hh
  · exact groupbyMean_append_none dayKey es hdd
  · exact key_mem_groupbyMean toneKey
      (List.mem_append_right es (List.mem_singleton.2 rfl)) rfl

/-- C6 witness. -/
theorem C6_unparseable_date_excluded_witness :
    (let e := enrichRow (fun _ => ⟨"POSITIVE", 1/2⟩)
        (preprocessRow (fun _ => none) (fun _ => none) 0
          { profile := some "p", text := some "t", hashtags := none,
            date := some "not-a-date", likes := some 1, comments := some 2,
            shares := some 3 })
     e.post_hour = none ∧ e.post_day = none ∧
     e ∈ extract_features (fun _ => ⟨"POSITIVE", 1/2⟩)
        (preprocess_data (fun _ => none) (fun _ => none) 0
          [{ profile := some "p", text := some "t", hashtags := none,
             date := some "not-a-date", likes := some 1, comments := some 2,
             shares := some 3 }]) ∧
     avg_engagement_by_hour ([] ++ [e]) = avg_engagement_by_hour [] ∧
     avg_engagement_by_day ([] ++ [e]) = avg_engagement_by_day [] ∧
     e.tone ∈ (avg_engagement_by_tone ([] ++ [e])).map Prod.fst) :=
  C6_unparseable_date_excluded (fun _ => ⟨"POSITIVE", 1/2⟩)
    (fun _ => none) (fun _ => none) 0
    [{ profile := some "p", text := some "t", hashtags := none,
       date := some "not-a-date", likes := some 1, comments := some 2,
       shares := some 3 }] _ []
    (by simp [drop_duplicates, dropDupGo]) (by decide)

/-- C7: per-field parse failures are never fatal: a failing hashtag-list
parse yields the empty list, a failing date parse yields the null
hour/day pair, and the affected row is still present in the normalized
output. -/
theorem C7_parse_failures_nonfatal (evalList : String → Option (List String))
    (absParse : String → Option Int) (now : Int) (hs ds : String)
    (rows : List RawRow) (r : RawRow)
    (hH : r.hashtags = some hs) (hEval : evalList hs = none)
    (hD : r.date = some ds)
    (hNoAgo : containsSub (lowerStr ds.data) "ago".data = false)
    (hAbs : absParse ds = none)
    (hr : r ∈ drop_duplicates rows) :
    clean_hashtags evalList (some hs) = [] ∧
    parse_date absParse now (some ds) = none ∧
    (preprocessRow evalList absParse now r).hashtags = [] ∧
    (preprocessRow evalList absParse now r).post_hour = none ∧
    (preprocessRow evalList absParse now r).post_day = none ∧
    preprocessRow evalList absParse now r ∈
      preprocess_data evalList absParse now rows := by
  have hch : clean_hashtags evalList (some hs) = [] := by
    simp [clean_hashtags, hEval]
  have hpd : parse_date absParse now (some ds) = none := by
    simp [parse_date, hNoAgo, hAbs]
  refine ⟨hch, hpd, ?_, ?_, ?_, ?_⟩
  · simp [preprocessRow, hH, hch]
  · simp [preprocessRow, hD, hpd]
  · simp [preprocessRow, hD, hpd]
  · exact List.mem_map_of_mem _ hr

/-- C7 witness. -/
theorem C7_parse_failures_nonfatal_witness :
    clean_hashtags (fun _ => none) (some "[broken") = [] ∧
    parse_date (fun _ => none) 0 (some "not-a-date") = none ∧
    (preprocessRow (fun _ => none) (fun _ => none) 0
      { profile := some "p", text := some "t", hashtags := some "[broken",
        date := some "not-a-date", likes := none, comments := none,
        shares := none }).hashtags = [] ∧
    (preprocessRow (fun _ => none) (fun _ => none) 0
      { profile := some "p", text := some "t", hashtags := some "[broken",
        date := some "not-a-date", likes := none, comments := none,
        shares := none }).post_hour = none ∧
    (preprocessRow (fun _ => none) (fun _ => none) 0
      { profile := some "p", text := some "t", hashtags := some "[broken",
        date := some "not-a-date", likes := none, comments := none,
        shares := none }).post_day = none ∧
    preprocessRow (fun _ => none) (fun _ => none) 0
      { profile := some "p", text := some "t", hashtags := some "[broken",
        date := some "not-a-date", likes := none, comments := none,
        shares := none } ∈
      preprocess_data (fun _ => none) (fun _ => none) 0
        [{ profile := some "p", text := some "t", hashtags := some "[broken",
           date := some "not-a-date", likes := none, comments := none,
           shares := none }] :=
  C7_parse_failures_nonfatal (fun _ => none) (fun _ => none) 0
    "[broken" "not-a-date" _ _ rfl rfl rfl (by decide) rfl
    (by simp [drop_duplicates, dropDupGo])

/-- C8: for a date string without the token "ago" that parses as an
absolute timestamp, the (hour, weekday) result of parse_date is the same
at any two invocation times: it depends only on the parsed timestamp. -/
theorem C8_absolute_date_time_independent (absParse : String → Option Int)
    (s : String) (t now₁ now₂ : Int)
    (hNoAgo : containsSub (lowerStr s.data) "ago".data = false)
    (hAbs : absParse s = some t) :
    parse_date absParse now₁ (some s) = parse_date absParse now₂ (some s) ∧
    parse_date absParse now₁ (some s) = some (hourOf t, weekdayOf t) := by
  simp [parse_date, hNoAgo, hAbs]

/-- C8 witness. -/
theorem C8_absolute_date_time_independent_witness :
    parse_date (fun _ => some 600) 111 (some "2024-01-01") =
      parse_date (fun _ => some 600) 999 (some "2024-01-01") ∧
    parse_date (fun _ => some 600) 111 (some "2024-01-01") =
      some (hourOf 600, weekdayOf 600) :=
  C8_absolute_date_time_independent (fun _ => some 600) "2024-01-01"
    600 111 999 (by decide) rfl

/-- C9: a post whose cleaned text is empty has length 0, which the
left-open bins of pd.cut assign to no bucket, so it is excluded from the
length grouping (appending it changes nothing) while it still appears in
the enriched table and joins the tone grouping. -/
theorem C9_zero_length_excluded (classify : List Char → SentResult)
    (evalList : String → Option (List String))
    (absParse : String → Option Int) (now : Int) (rows : List RawRow)
    (r : RawRow) (es : List Enriched)
    (hr : r ∈ drop_duplicates rows)
    (ht : cleanText r.text = some "") :
    let e := enrichRow classify (preprocessRow evalList absParse now r)
    e.length = some 0 ∧ lengthKey e = none ∧
    e ∈ extract_features classify (preprocess_data evalList absParse now rows) ∧
    avg_engagement_by_length (es ++ [e]) = avg_engagement_by_length es ∧
    e.tone ∈ (avg_engagement_by_tone (es ++ [e])).map Prod.fst := by
  intro e
  have hlen : e.length = some 0 := by
    simp [e, enrichRow, preprocessRow, ht]
  have hkey : lengthKey e = none := by
    rw [lengthKey, hlen]
    decide
  refine ⟨hlen, hkey, ?_, ?_, ?_⟩
  · simp only [extract_features, preprocess_data, List.map_map]
    exact List.mem_map_of_mem _ hr
  · exact groupbyMean_append_none lengthKey es hkey
  · exact key_mem_groupbyMean toneKey
      (List.mem_append_right es (List.mem_singleton.2 rfl)) rfl

/-- C9 witness. -/
theorem C9_zero_length_excluded_witness :
    (let e := enrichRow (fun _ => ⟨"POSITIVE", 1/2⟩)
        (preprocessRow (fun _ => none) (fun _ => none) 0
          { profile := some "p", text := some "  ", hashtags := none,
            date := none, likes := some 1, comments := some 2,
            shares := some 3 })
     e.length = some 0 ∧ lengthKey e = none ∧
     e ∈ extract_features (fun _ => ⟨"POSITIVE", 1/2⟩)
        (preprocess_data (fun _ => none) (fun _ => none) 0
          [{ profile := some "p", text := some "  ", hashtags := none,
             date := none, likes := some 1, comments := some 2,
             shares := some 3 }]) ∧
     avg_engagement_by_length ([] ++ [e]) = avg_engagement_by_length [] ∧
     e.tone ∈ (avg_engagement_by_tone ([] ++ [e])).map Prod.fst) :=
  C9_zero_length_excluded (fun _ => ⟨"POSITIVE", 1/2⟩)
    (fun _ => none) (fun _ => none) 0
    [{ profile := some "p", text := some "  ", hashtags := none,
       date := none, likes := some 1, comments := some 2,
       shares := some 3 }] _ []
    (by simp [drop_duplicates, dropDupGo]) (by decide)

/-- C10: for any trends input and any requested count n, generate_posts
returns exactly n records; record i is exactly the record built by the
i-th loop iteration (so it carries all seven keys of the post_data dict,
which are the fields of GenPost); its error field records an API failure
as "API Error: ...", a JSON-parse failure as "JSON Parsing Error: ...",
a structurally invalid parse as the missing-keys message and is null on
success; and record i is unchanged under any variation of the API
behaviour on the other iterations. -/
theorem C10_generate_posts_shape (jsonLoads : String → Except String JVal)
    (api api₂ : Nat → Except String String) (nowStr genAt : Nat → String)
    (trends : Option Trends)
    (feedback : Option (List (String × List (String × String))))
    (n i : Nat) (hi : i < n) (hagree : api i = api₂ i) :
    (generate_posts jsonLoads api nowStr genAt trends feedback n).length = n ∧
    (generate_posts jsonLoads api nowStr genAt trends feedback n)[i]? =
      some (mkPostTry jsonLoads api nowStr genAt
        (suggestedDay (get_prompt trends feedback).2) (suggestedHour trends) i) ∧
    (mkPostTry jsonLoads api nowStr genAt
        (suggestedDay (get_prompt trends feedback).2) (suggestedHour trends) i).error =
      (match api i with
       | .error e => some ("API Error: " ++ e)
       | .ok raw0 =>
         match jsonLoads (jsonCleaned (String.mk (stripWS raw0.data))) with
         | .error msg => some ("JSON Parsing Error: " ++ msg)
         | .ok parsed =>
           if hasRequiredKeys parsed then none else some missingKeysMsg) ∧
    (generate_posts jsonLoads api₂ nowStr genAt trends feedback n)[i]? =
      (generate_posts jsonLoads api nowStr genAt trends feedback n)[i]? := by
  have hne := get_prompt_fst_ne_empty trends feedback
  have hgen : ∀ a : Nat → Except String String,
      generate_posts jsonLoads a nowStr genAt trends feedback n =
        (List.range n).map (mkPostTry jsonLoads a nowStr genAt
          (suggestedDay (get_prompt trends feedback).2) (suggestedHour trends)) := by
    intro a
    rw [generate_posts, if_neg hne]
  have hget : ∀ a : Nat → Except String String,
      (generate_posts jsonLoads a nowStr genAt trends feedback n)[i]? =
        some (mkPostTry jsonLoads a nowStr genAt
          (suggestedDay (get_prompt trends feedback).2) (suggestedHour trends) i) := by
    intro a
    rw [hgen a, List.getElem?_map, List.getElem?_range hi, Option.map_some']
  have hmk : mkPostTry jsonLoads api₂ nowStr genAt
      (suggestedDay (get_prompt trends feedback).2) (suggestedHour trends) i =
      mkPostTry jsonLoads api nowStr genAt
        (suggestedDay (get_prompt trends feedback).2) (suggestedHour trends) i := by
    rw [mkPostTry, mkPostTry, hagree]
  refine ⟨?_, hget api, ?_, ?_⟩
  · rw [hgen api, List.length_map, List.length_range]
  · rw [mkPostTry]
    cases hapi : api i with
    | error e => simp
    | ok raw0 =>
      cases hjson : jsonLoads (jsonCleaned (String.mk (stripWS raw0.data))) with
      | error msg => simp [hjson]
      | ok parsed =>
        by_cases hk : hasRequiredKeys parsed
        · simp [hjson, hk]
        · simp [hjson, hk]
  · rw [hget api, hget api₂, hmk]

/-- C10 witness. -/
theorem C10_generate_posts_shape_witness :
    (generate_posts (fun _ => .error "bad") (fun _ => .error "boom")
        (fun _ => "T") (fun _ => "G") none none 2).length = 2 ∧
    (generate_posts (fun _ => .error "bad") (fun _ => .error "boom")
        (fun _ => "T") (fun _ => "G") none none 2)[0]? =
      some (mkPostTry (fun _ => .error "bad") (fun _ => .error "boom")
        (fun _ => "T") (fun _ => "G")
        (suggestedDay (get_prompt none none).2) (suggestedHour none) 0) ∧
    (mkPostTry (fun _ => .error "bad") (fun _ => .error "boom")
        (fun _ => "T") (fun _ => "G")
        (suggestedDay (get_prompt none none).2) (suggestedHour none) 0).error =
      (match (fun _ => Except.error "boom" : Nat → Except String String) 0 with
       | .error e => some ("API Error: " ++ e)
       | .ok raw0 =>
         match (fun _ => Except.error "bad" : String → Except String JVal)
             (jsonCleaned (String.mk (stripWS raw0.data))) with
         | .error msg => some ("JSON Parsing Error: " ++ msg)
         | .ok parsed =>
           if hasRequiredKeys parsed then none else some missingKeysMsg) ∧
    (generate_posts (fun _ => .error "bad") (fun _ => .error "boom")
        (fun _ => "T") (fun _ => "G") none none 2)[0]? =
      (generate_posts (fun _ => .error "bad") (fun _ => .error "boom")
        (fun _ => "T") (fun _ => "G") none none 2)[0]? :=
  C10_generate_posts_shape (fun _ => .error "bad") (fun _ => .error "boom")
    (fun _ => .error "boom") (fun _ => "T") (fun _ => "G") none none 2 0
    (by decide) rfl
